import Mathlib

/-!
Shallow embedding of the medimg-backend authorization-and-approval core:
the data model (src/app/models.py), the audit recorder (src/app/audit.py),
the time utilities (src/app/utils/time.py), and the router operations
(src/app/routers/*.py) that the claims are about.

Machine conventions: database primary keys and user ids are `Int`;
timestamps are wall-clock readings in minutes, carried together with an
optional timezone offset to mirror Python's naive/aware `datetime` split;
the filesystem is a list of existing absolute paths; each operation returns
its HTTP outcome together with the list of audit rows it appended, in order.
-/

namespace MedImg

/-- Python `datetime`: a wall-clock reading (in minutes) plus an optional
timezone offset in minutes (`none` models a naive datetime, `some o` a
timezone-aware one with `utcoffset() = o`). -/
structure PyDateTime where
  value : Int
  offset : Option Int
deriving DecidableEq, Repr

/-- Python comparison `a < b` on datetimes: naive compares with naive by
wall-clock value, aware compares with aware in absolute terms, and a
mixed naive/aware comparison raises `TypeError` (modelled as `.error`). -/
def pyLt (a b : PyDateTime) : Except Unit Bool :=
  match a.offset, b.offset with
  | none, none => .ok (decide (a.value < b.value))
  | some oa, some ob => .ok (decide (a.value - oa < b.value - ob))
  | _, _ => .error ()

/-- `app.utils.time.utc_now`: a timezone-aware UTC datetime for the current
true-UTC instant `t`. -/
def utc_now (t : Int) : PyDateTime := ⟨t, some 0⟩

/-- Python `datetime.utcnow()`: a NAIVE datetime whose wall-clock reading is
the current true-UTC instant `t`. -/
def utcnow_naive (t : Int) : PyDateTime := ⟨t, none⟩

/-- `samples_router.ensure_utc`: `None` passes through; a naive datetime gets
`tzinfo=timezone.utc` attached (same wall-clock value, offset 0); an aware
datetime is returned unchanged. -/
def ensure_utc : Option PyDateTime → Option PyDateTime
  | none => none
  | some dt =>
      match dt.offset with
      | none => some ⟨dt.value, some 0⟩
      | some _ => some dt

/-- The absolute UTC instant an aware datetime denotes (wall clock minus
offset); for a naive datetime this reads the wall clock itself. -/
def absUtc (dt : PyDateTime) : Int := dt.value - dt.offset.getD 0

/-! ## Enumerations (src/app/models.py) -/

inductive UserRole where
  | admin
  | data_admin
  | researcher
deriving DecidableEq, Repr

inductive Visibility where
  | group
  | «private»
deriving DecidableEq, Repr

inductive AnnoType where
  | bbox
  | polygon
  | brush
  | tag
deriving DecidableEq, Repr

inductive AnnoStatus where
  | submitted
  | approved
  | rejected
deriving DecidableEq, Repr

inductive ResourceType where
  | dataset
  | sample
deriving DecidableEq, Repr

/-- `.value` of a `ResourceType` enum member (used when logging). -/
def ResourceType.value : ResourceType → String
  | .dataset => "dataset"
  | .sample => "sample"

inductive Decision where
  | pending
  | approved
  | rejected
deriving DecidableEq, Repr

inductive AuditResult where
  | ok
  | deny
  | error
deriving DecidableEq, Repr

/-! ## Table rows (src/app/models.py) -/

structure User where
  id : Int
  username : String
  hashed_password : String
  role : UserRole
  created_at : PyDateTime
deriving DecidableEq, Repr

structure Dataset where
  id : Int
  name : String
  description : Option String
  version : Option String
  visibility : Visibility
  created_by : Int
  created_at : PyDateTime
deriving DecidableEq, Repr

structure Sample where
  id : Int
  dataset_id : Int
  filename : String
  file_path : String
  sha256 : String
  mime : Option String
  created_by : Int
  created_at : PyDateTime
deriving DecidableEq, Repr

structure Annotation where
  id : Int
  sample_id : Int
  author_id : Int
  anno_type : AnnoType
  payload_json : String
  status : AnnoStatus
  version : Int
  created_at : PyDateTime
deriving DecidableEq, Repr

structure Approval where
  id : Int
  applicant_id : Int
  resource_type : ResourceType
  resource_id : Int
  purpose : Option String
  decision : Decision
  expires_at : Option PyDateTime
  reviewed_by : Option Int
  reviewed_at : Option PyDateTime
  created_at : PyDateTime
deriving DecidableEq, Repr

structure AuditLog where
  actor_id : Option Int
  action : String
  resource_type : Option String
  resource_id : Option Int
  ip : Option String
  result : AuditResult
  detail : Option String
  created_at : PyDateTime
deriving DecidableEq, Repr

/-- The relational store: one list per table. -/
structure DB where
  users : List User
  datasets : List Dataset
  samples : List Sample
  annotations : List Annotation
  approvals : List Approval
  audit_logs : List AuditLog
deriving DecidableEq, Repr

/-! ## Audit recorder (src/app/audit.py) -/

/-- `audit.log_action`: builds the appended `AuditLog` row. A non-positive
actor id is coerced to `NULL`; `created_at` is `datetime.utcnow()` (naive). -/
def log_action (actor_id : Option Int) (action : String) (ip : Option String)
    (resource_type : Option String) (resource_id : Option Int)
    (result : AuditResult) (detail : Option String) (now : Int) : AuditLog :=
  { actor_id :=
      match actor_id with
      | some a => if 0 < a then some a else none
      | none => none
    action := action
    resource_type := resource_type
    resource_id := resource_id
    ip := ip
    result := result
    detail := detail
    created_at := utcnow_naive now }

/-! ## Query helpers -/

/-- `db.query(Dataset).filter(Dataset.id == dataset_id).first()`. -/
def findDataset (db : DB) (dataset_id : Int) : Option Dataset :=
  db.datasets.find? (fun d => d.id == dataset_id)

/-- `db.query(Sample).filter(Sample.id == sample_id).first()`. -/
def findSample (db : DB) (sample_id : Int) : Option Sample :=
  db.samples.find? (fun s => s.id == sample_id)

/-- `select(Approval).where(Approval.id == approval_id)` / `.first()`. -/
def findApproval (db : DB) (approval_id : Int) : Option Approval :=
  db.approvals.find? (fun a => a.id == approval_id)

/-- `.order_by(Approval.id.desc()).first()`: the row with the largest id. -/
def maxByIdDesc : List Approval → Option Approval
  | [] => none
  | a :: rest =>
      match maxByIdDesc rest with
      | none => some a
      | some b => if b.id < a.id then some a else some b

/-- The inline query of both download routers: the most recent (largest-id)
Approval of `uid` for the given resource, or `none`. -/
def latestApprovalFor (db : DB) (uid : Int) (rt : ResourceType) (rid : Int) :
    Option Approval :=
  maxByIdDesc (db.approvals.filter
    (fun a => a.applicant_id == uid && a.resource_type == rt && a.resource_id == rid))

/-! ## Identity resolution (src/app/deps.py) -/

/-- `deps.get_current_user`: the token decode is the excluded credential
collaborator, abstracted to the `sub` claim it yields (`none` when decoding
raises or the claim is missing). Note: neither 401 path writes an audit row. -/
def get_current_user (db : DB) (token_username : Option String) :
    Except (Nat × String) User :=
  match token_username with
  | none => .error (401, "Invalid token")
  | some username =>
      match db.users.find? (fun u => u.username == username) with
      | none => .error (401, "User not found")
      | some u => .ok u

/-- `deps.require_role`: rejects a caller whose role is outside the allowed
set; writes no audit row. -/
def require_role (roles : List UserRole) (current : User) :
    Except (Nat × String) User :=
  if roles ≠ [] ∧ current.role ∉ roles then .error (403, "Insufficient role")
  else .ok current

/-! ## Dataset endpoints (src/app/routers/datasets_router.py) -/

/-- `GET /datasets/{id}` (`get_dataset`): 404 when absent, 403 for a
researcher on a private dataset they did not create, else the row; one audit
row on every path. -/
def get_dataset (db : DB) (current : User) (ip : Option String)
    (dataset_id : Int) (now : Int) :
    Except (Nat × String) Dataset × List AuditLog :=
  match findDataset db dataset_id with
  | none =>
      (.error (404, "数据集不存在"),
       [log_action (some current.id) "get_dataset" ip none none .deny (some "not found") now])
  | some d =>
      if current.role = UserRole.researcher ∧
          (d.visibility = Visibility.«private» ∧ d.created_by ≠ current.id) then
        (.error (403, "无权访问该数据集"),
         [log_action (some current.id) "get_dataset" ip none none .deny (some "no permission") now])
      else
        (.ok d,
         [log_action (some current.id) "get_dataset" ip (some "dataset") (some d.id) .ok none now])

/-- `GET /datasets/{id}/download` (`download_dataset`). The outer `Except Unit`
models the uncaught `TypeError` Python raises when the stored `expires_at`
is timezone-aware and gets compared against the naive `datetime.utcnow()`
(line 151 compares directly, with no `ensure_utc` normalization). -/
def download_dataset (db : DB) (root : String) (fs : List String)
    (current : User) (ip : Option String) (dataset_id : Int) (now : Int) :
    Except Unit (Except (Nat × String) String × List AuditLog) :=
  match findDataset db dataset_id with
  | none =>
      .ok (.error (404, "数据集不存在"),
        [log_action (some current.id) "download_dataset" ip none none .deny (some "dataset not found") now])
  | some _ =>
      match latestApprovalFor db current.id ResourceType.dataset dataset_id with
      | none =>
          .ok (.error (403, "无下载权限（未申请审批）"),
            [log_action (some current.id) "download_dataset" ip none none .deny (some "no approval") now])
      | some approval =>
          if approval.decision ≠ Decision.approved then
            .ok (.error (403, "审批未通过"),
              [log_action (some current.id) "download_dataset" ip none none .deny (some "not approved") now])
          else
            let rest : Except (Nat × String) String × List AuditLog :=
              if (root ++ "/dataset_" ++ toString dataset_id) ∈ fs then
                (.ok ("dataset_" ++ toString dataset_id ++ ".zip"),
                 [log_action (some current.id) "download_dataset" ip (some "dataset") (some dataset_id) .ok none now])
              else
                (.error (500, "数据集目录不存在"),
                 [log_action (some current.id) "download_dataset" ip none none .error (some "folder missing") now])
            match approval.expires_at with
            | none => .ok rest
            | some e =>
                match pyLt e (utcnow_naive now) with
                | .error _ => .error ()
                | .ok true =>
                    .ok (.error (403, "审批已过期"),
                      [log_action (some current.id) "download_dataset" ip none none .deny (some "approval expired") now])
                | .ok false => .ok rest

/-- `DELETE /datasets/{id}` (`delete_dataset`): note the not-found path raises
404 without logging; the cascade removes the dataset's samples (database
`ON DELETE CASCADE`) and the on-disk directory tree. -/
def delete_dataset (db : DB) (root : String) (fs : List String)
    (current : User) (ip : Option String) (dataset_id : Int) (now : Int) :
    Except (Nat × String) Unit × List AuditLog × DB × List String :=
  match findDataset db dataset_id with
  | none => (.error (404, "数据集不存在"), [], db, fs)
  | some dataset =>
      if dataset.created_by ≠ current.id ∧
          current.role ∉ ([UserRole.admin, UserRole.data_admin] : List UserRole) then
        (.error (403, "无权删除该数据集"),
         [log_action (some current.id) "delete_dataset" ip none none .deny none now], db, fs)
      else
        let dir := root ++ "/dataset_" ++ toString dataset_id
        let fs' := fs.filter (fun p => ¬ (p = dir ∨ (dir ++ "/").isPrefixOf p))
        let db' := { db with
          datasets := db.datasets.filter (fun d => d.id ≠ dataset_id)
          samples := db.samples.filter (fun s => s.dataset_id ≠ dataset_id) }
        (.ok (),
         [log_action (some current.id) "delete_dataset" ip (some "dataset") (some dataset_id) .ok none now],
         db', fs')

/-! ## Sample endpoints (src/app/routers/samples_router.py) -/

def ALLOWED_EXT : List String := [".jpg", ".jpeg", ".png", ".tif", ".tiff"]

/-- Largest index at which `c` occurs (Python `str.rfind`, as an `Option`). -/
def lastIndexOf (c : Char) : List Char → Option Nat
  | [] => none
  | x :: xs =>
      match lastIndexOf c xs with
      | some i => some (i + 1)
      | none => if x = c then some 0 else none

/-- Python `str.lower()` restricted to its ASCII case mapping (filenames in
this system are ASCII; the router lowercases before taking the extension). -/
def str_lower (s : String) : String := String.mk (s.data.map Char.toLower)

/-- The extension part of `os.path.splitext` (posix rules): split at the last
dot that lies after the last `/` and after at least one non-dot character of
the final path component; otherwise the extension is empty. -/
def splitext_ext (name : String) : String :=
  let p := name.toList
  match lastIndexOf '.' p with
  | none => ""
  | some d =>
      let fi : Nat :=
        match lastIndexOf '/' p with
        | none => 0
        | some s => s + 1
      if fi ≤ d ∧ (List.range d).any (fun k => decide (fi ≤ k) && p.getD k '.' != '.') then
        String.mk (p.drop d)
      else ""

/-- `POST /samples/upload/{datasetId}` (`upload_sample`). The sha256 digest
computation is the excluded blob-storage/crypto collaborator, passed in as
`sha256_of_bytes`; `new_id` models the primary key the database assigns at
commit. Order of checks: extension, dataset existence, global checksum
uniqueness (no dataset filter on the duplicate query). -/
def upload_sample (sha256_of_bytes : String → String) (db : DB) (root : String)
    (fs : List String) (current : User) (ip : Option String) (dataset_id : Int)
    (filename : String) (content : String) (mime : Option String)
    (new_id : Int) (now : Int) :
    Except (Nat × String) Sample × List AuditLog × DB × List String :=
  let ext := splitext_ext (str_lower filename)
  if ext ∉ ALLOWED_EXT then
    (.error (400, "文件类型不允许: " ++ ext),
     [log_action (some current.id) "upload_sample" ip none none .deny (some ("invalid ext: " ++ ext)) now],
     db, fs)
  else
    match findDataset db dataset_id with
    | none =>
        (.error (404, "数据集不存在"),
         [log_action (some current.id) "upload_sample" ip none none .deny (some "dataset not found") now],
         db, fs)
    | some _ =>
        let digest := sha256_of_bytes content
        match db.samples.find? (fun s => s.sha256 == digest) with
        | some _ =>
            (.error (409, "该文件已存在（SHA256重复）"),
             [log_action (some current.id) "upload_sample" ip none none .deny (some "sha256 duplicate") now],
             db, fs)
        | none =>
            let save_dir := "dataset_" ++ toString dataset_id
            let relative_path := save_dir ++ "/" ++ filename
            let abs_path := root ++ "/" ++ relative_path
            let sample : Sample :=
              { id := new_id
                dataset_id := dataset_id
                filename := filename
                file_path := relative_path
                sha256 := digest
                mime := mime
                created_by := current.id
                created_at := utcnow_naive now }
            (.ok sample,
             [log_action (some current.id) "upload_sample" ip (some "sample") (some new_id) .ok none now],
             { db with samples := db.samples ++ [sample] },
             abs_path :: fs)

/-- `GET /samples/{id}/download` (`download_sample`): mirrors the dataset
download but normalizes `expires_at` through `ensure_utc` and compares it
against the aware `utc_now()`, so the mixed-kind `TypeError` branch is
unreachable here. -/
def download_sample (db : DB) (root : String) (fs : List String)
    (current : User) (ip : Option String) (sample_id : Int) (now : Int) :
    Except Unit (Except (Nat × String) String × List AuditLog) :=
  match findSample db sample_id with
  | none =>
      .ok (.error (404, "样本不存在"),
        [log_action (some current.id) "download_sample" ip none none .deny (some "sample not found") now])
  | some sample =>
      match latestApprovalFor db current.id ResourceType.sample sample_id with
      | none =>
          .ok (.error (403, "无下载权限（未申请审批）"),
            [log_action (some current.id) "download_sample" ip none none .deny (some "no approval") now])
      | some approval =>
          if approval.decision ≠ Decision.approved then
            .ok (.error (403, "审批未通过"),
              [log_action (some current.id) "download_sample" ip none none .deny (some "not approved") now])
          else
            let rest : Except (Nat × String) String × List AuditLog :=
              if (root ++ "/" ++ sample.file_path) ∈ fs then
                (.ok (root ++ "/" ++ sample.file_path),
                 [log_action (some current.id) "download_sample" ip (some "sample") (some sample_id) .ok none now])
              else
                (.error (500, "文件不存在"),
                 [log_action (some current.id) "download_sample" ip none none .error (some "file not found") now])
            match ensure_utc approval.expires_at with
            | none => .ok rest
            | some e =>
                match pyLt e (utc_now now) with
                | .error _ => .error ()
                | .ok true =>
                    .ok (.error (403, "审批已过期"),
                      [log_action (some current.id) "download_sample" ip none none .deny (some "approval expired") now])
                | .ok false => .ok rest

/-- `DELETE /samples/{id}` (`delete_sample`): the not-found path raises 404
without logging, like `delete_dataset`. -/
def delete_sample (db : DB) (root : String) (fs : List String)
    (current : User) (ip : Option String) (sample_id : Int) (now : Int) :
    Except (Nat × String) Unit × List AuditLog × DB × List String :=
  match findSample db sample_id with
  | none => (.error (404, "样本不存在"), [], db, fs)
  | some sample =>
      if sample.created_by ≠ current.id ∧
          current.role ∉ ([UserRole.admin, UserRole.data_admin] : List UserRole) then
        (.error (403, "无权删除该样本"),
         [log_action (some current.id) "delete_sample" ip none none .deny none now], db, fs)
      else
        let abs_path := root ++ "/" ++ sample.file_path
        (.ok (),
         [log_action (some current.id) "delete_sample" ip (some "sample") (some sample_id) .ok none now],
         { db with samples := db.samples.filter (fun s => s.id ≠ sample_id) },
         fs.filter (fun p => p ≠ abs_path))

/-! ## Approval endpoints (src/app/routers/approvals_router.py) -/

/-- Python truthiness of the optional `ttl_minutes` argument: `None` and `0`
are falsy, every other integer is truthy. -/
def truthyInt : Option Int → Bool
  | none => false
  | some t => t != 0

/-- The mutated row `review_approval` commits when the found approval is
still pending (the assignment block of approvals_router lines 76–82):
decision, reviewer and review time are set, and `expires_at` is set to
`utcnow + ttl_minutes` only when the decision is `approved` and
`ttl_minutes` is truthy. -/
def reviewedRecord (a : Approval) (current : User) (decision : Decision)
    (ttl_minutes : Option Int) (now : Int) : Approval :=
  { a with
    decision := decision
    reviewed_by := some current.id
    reviewed_at := some (utcnow_naive now)
    expires_at :=
      if decision = Decision.approved ∧ truthyInt ttl_minutes then
        some (utcnow_naive (now + ttl_minutes.getD 0))
      else a.expires_at }

/-- `POST /approvals/{id}/review` (`review_approval`). The caller has already
passed `require_role(admin, data_admin)`. The review fields are set on the
found row; `expires_at` is set only when the decision is `approved` AND
`ttl_minutes` is truthy (so `0` behaves like absent). Returns the response,
the appended audit rows, and the updated store. -/
def review_approval (db : DB) (current : User) (ip : Option String)
    (approval_id : Int) (decision : Decision) (ttl_minutes : Option Int)
    (now : Int) :
    Except (Nat × String) Approval × List AuditLog × DB :=
  match findApproval db approval_id with
  | none =>
      (.error (404, "审批请求不存在"),
       [log_action (some current.id) "review_approval" ip none none .deny (some "not found") now],
       db)
  | some approval =>
      if approval.decision ≠ Decision.pending then
        (.error (400, "该请求已审核过"),
         [log_action (some current.id) "review_approval" ip none none .deny (some "already reviewed") now],
         db)
      else
        let approval' : Approval := reviewedRecord approval current decision ttl_minutes now
        (.ok approval',
         [log_action (some current.id) "review_approval" ip
            (some approval.resource_type.value) (some approval.id) .ok none now],
         { db with approvals := db.approvals.map (fun a => if a.id = approval_id then approval' else a) })

/-! ## Annotation creation (src/app/routers/annotations_router.py) -/

/-- The value of a `SELECT … ORDER BY version DESC LIMIT 1` over a bag of
versions, with the router's `row[0] if row else 0` default: the maximum of
the list, or 0 when it is empty. -/
def maxRow : List Int → Int
  | [] => 0
  | v :: vs => vs.foldl max v

/-- The `last_version` lookup of `create_annotation`: the largest version
among the sample's annotations (`order_by(version.desc()).first()`), or 0
when the sample has none. -/
def last_version_for (annotations : List Annotation) (sample_id : Int) : Int :=
  maxRow ((annotations.filter (fun a => a.sample_id == sample_id)).map (fun a => a.version))

/-- `POST /annotations/{sampleId}` (`create_annotation`): assigns version
`last_version + 1`; `new_id` models the database-assigned primary key. -/
def create_annotation (db : DB) (current : User) (ip : Option String)
    (sample_id : Int) (anno_type : AnnoType) (payload_json : String)
    (new_id : Int) (now : Int) :
    Except (Nat × String) Annotation × List AuditLog × DB :=
  match findSample db sample_id with
  | none =>
      (.error (404, "样本不存在"),
       [log_action (some current.id) "create_annotation" ip none none .deny (some "sample not found") now],
       db)
  | some _ =>
      let next_version := last_version_for db.annotations sample_id + 1
      let anno : Annotation :=
        { id := new_id
          sample_id := sample_id
          author_id := current.id
          anno_type := anno_type
          payload_json := payload_json
          status := AnnoStatus.submitted
          version := next_version
          created_at := utcnow_naive now }
      (.ok anno,
       [log_action (some current.id) "create_annotation" ip (some "annotation") (some new_id) .ok none now],
       { db with annotations := db.annotations ++ [anno] })

/-! ## The spec's download-authorization sequence (§4.4), for refinement -/

/-- The reasons §4.4 lists, in sequence order. -/
inductive DenyReason where
  | not_found
  | no_approval
  | not_approved
  | approval_expired
  | storage_missing
deriving DecidableEq, Repr

/-- Written from the spec's words (§4.4): the five conditions in their fixed
order, the first failing one short-circuiting with its listed reason. The
expiry condition and the storage condition are taken as already-evaluated
flags so that the same sequence covers both resource kinds. -/
def authorizeDownloadSpec (resourceExists : Bool) (latest : Option Approval)
    (expired : Bool) (storageExists : Bool) : Except DenyReason Unit :=
  if resourceExists = false then .error .not_found
  else
    match latest with
    | none => .error .no_approval
    | some a =>
        if a.decision ≠ Decision.approved then .error .not_approved
        else if expired then .error .approval_expired
        else if storageExists = false then .error .storage_missing
        else .ok ()

/-- The audit result class §4.4 assigns each failure: `storage_missing` is an
operator fault logged as `error`, every earlier failure is a `deny`. -/
def auditResultOfReason : DenyReason → AuditResult
  | .storage_missing => .error
  | _ => .deny

/-- The HTTP status and message `download_dataset` surfaces for each reason. -/
def datasetHttpOfReason : DenyReason → Nat × String
  | .not_found => (404, "数据集不存在")
  | .no_approval => (403, "无下载权限（未申请审批）")
  | .not_approved => (403, "审批未通过")
  | .approval_expired => (403, "审批已过期")
  | .storage_missing => (500, "数据集目录不存在")

/-- The audit detail string `download_dataset` logs for each reason. -/
def datasetDetailOfReason : DenyReason → String
  | .not_found => "dataset not found"
  | .no_approval => "no approval"
  | .not_approved => "not approved"
  | .approval_expired => "approval expired"
  | .storage_missing => "folder missing"

/-- The HTTP status and message `download_sample` surfaces for each reason. -/
def sampleHttpOfReason : DenyReason → Nat × String
  | .not_found => (404, "样本不存在")
  | .no_approval => (403, "无下载权限（未申请审批）")
  | .not_approved => (403, "审批未通过")
  | .approval_expired => (403, "审批已过期")
  | .storage_missing => (500, "文件不存在")

/-- The audit detail string `download_sample` logs for each reason. -/
def sampleDetailOfReason : DenyReason → String
  | .not_found => "sample not found"
  | .no_approval => "no approval"
  | .not_approved => "not approved"
  | .approval_expired => "approval expired"
  | .storage_missing => "file not found"

/-- How `download_dataset` renders a spec outcome: the HTTP response plus the
single audit row for it. -/
def renderDataset (current : User) (ip : Option String) (did : Int) (now : Int) :
    Except DenyReason Unit → Except (Nat × String) String × List AuditLog
  | .ok _ =>
      (.ok ("dataset_" ++ toString did ++ ".zip"),
       [log_action (some current.id) "download_dataset" ip (some "dataset") (some did) .ok none now])
  | .error r =>
      (.error (datasetHttpOfReason r),
       [log_action (some current.id) "download_dataset" ip none none
          (auditResultOfReason r) (some (datasetDetailOfReason r)) now])

/-- How `download_sample` renders a spec outcome (`path` is the sample's
absolute storage path, only used by the grant). -/
def renderSample (current : User) (ip : Option String) (sid : Int)
    (path : String) (now : Int) :
    Except DenyReason Unit → Except (Nat × String) String × List AuditLog
  | .ok _ =>
      (.ok path,
       [log_action (some current.id) "download_sample" ip (some "sample") (some sid) .ok none now])
  | .error r =>
      (.error (sampleHttpOfReason r),
       [log_action (some current.id) "download_sample" ip none none
          (auditResultOfReason r) (some (sampleDetailOfReason r)) now])

/-- The expiry condition as `download_dataset` evaluates it: the raw stored
timestamp compared by `<` against the naive `datetime.utcnow()`. -/
def datasetExpiry (db : DB) (uid did : Int) (now : Int) : Except Unit Bool :=
  match latestApprovalFor db uid ResourceType.dataset did with
  | none => .ok false
  | some a =>
      match a.expires_at with
      | none => .ok false
      | some e => pyLt e (utcnow_naive now)

/-- The expiry condition as `download_sample` evaluates it: the stored
timestamp pushed through `ensure_utc`, compared against the aware
`utc_now()`. -/
def sampleExpiry (db : DB) (uid sid : Int) (now : Int) : Except Unit Bool :=
  match latestApprovalFor db uid ResourceType.sample sid with
  | none => .ok false
  | some a =>
      match ensure_utc a.expires_at with
      | none => .ok false
      | some e => pyLt e (utc_now now)

/-- `ensure_utc` on a present datetime (the `some` case of `ensure_utc`). -/
def ensureDt (e : PyDateTime) : PyDateTime :=
  match e.offset with
  | none => ⟨e.value, some 0⟩
  | some _ => e

/-- Whether the audit row's result class matches a download outcome the way
the spec requires: `ok` for a grant, `error` for the 500 storage fault,
`deny` for every 4xx permission failure. -/
def outcomeMatches : Except (Nat × String) String → AuditResult → Prop
  | .ok _, r => r = AuditResult.ok
  | .error (code, _), r => if code = 500 then r = AuditResult.error else r = AuditResult.deny

/-! ## Concrete fixtures for witnesses and counterexamples -/

def epoch : PyDateTime := ⟨0, none⟩

def fxAlice : User :=
  { id := 1, username := "alice", hashed_password := "h1"
    role := UserRole.researcher, created_at := epoch }

def fxBob : User :=
  { id := 2, username := "bob", hashed_password := "h2"
    role := UserRole.researcher, created_at := epoch }

def fxCarol : User :=
  { id := 3, username := "carol", hashed_password := "h3"
    role := UserRole.admin, created_at := epoch }

/-- A private dataset created by user 1 (alice). -/
def fxPrivateDs : Dataset :=
  { id := 1, name := "D1", description := none, version := none
    visibility := Visibility.«private», created_by := 1, created_at := epoch }

/-- A second, group-visible dataset created by user 2 (bob). -/
def fxGroupDs : Dataset :=
  { id := 2, name := "D2", description := none, version := none
    visibility := Visibility.group, created_by := 2, created_at := epoch }

/-- The sample user 1 uploaded into dataset 1. -/
def fxSample : Sample :=
  { id := 1, dataset_id := 1, filename := "a.png", file_path := "dataset_1/a.png"
    sha256 := "abc", mime := some "image/png", created_by := 1, created_at := epoch }

/-- A second sample, in dataset 2, used for version independence. -/
def fxSample2 : Sample :=
  { id := 2, dataset_id := 2, filename := "b.png", file_path := "dataset_2/b.png"
    sha256 := "def", mime := some "image/png", created_by := 1, created_at := epoch }

/-- A pending approval (id 5) by user 1 for dataset 1. -/
def fxPending : Approval :=
  { id := 5, applicant_id := 1, resource_type := ResourceType.dataset
    resource_id := 1, purpose := some "research", decision := Decision.pending
    expires_at := none, reviewed_by := none, reviewed_at := none, created_at := epoch }

/-- An approved approval by user 1 for dataset 1, naive expiry at minute 100. -/
def fxApprovedD : Approval :=
  { id := 6, applicant_id := 1, resource_type := ResourceType.dataset
    resource_id := 1, purpose := some "research", decision := Decision.approved
    expires_at := some ⟨100, none⟩, reviewed_by := some 3
    reviewed_at := some epoch, created_at := epoch }

/-- An approved approval by user 1 for sample 1, naive expiry at minute 50. -/
def fxApprovedS : Approval :=
  { id := 7, applicant_id := 1, resource_type := ResourceType.sample
    resource_id := 1, purpose := some "research", decision := Decision.approved
    expires_at := some ⟨50, none⟩, reviewed_by := some 3
    reviewed_at := some epoch, created_at := epoch }

/-- An approved approval by user 1 for dataset 1 whose expiry is stored
timezone-AWARE (offset 0, instant 100). -/
def fxApprovedAware : Approval :=
  { fxApprovedD with id := 8, expires_at := some ⟨100, some 0⟩ }

def fxDb : DB :=
  { users := [fxAlice, fxBob, fxCarol]
    datasets := [fxPrivateDs, fxGroupDs]
    samples := [fxSample, fxSample2]
    annotations := []
    approvals := [fxPending]
    audit_logs := [] }

/-- Store with approved dataset and sample approvals for user 1. -/
def fxDbApproved : DB :=
  { fxDb with approvals := [fxApprovedD, fxApprovedS] }

/-- Store whose only dataset approval has a timezone-aware expiry. -/
def fxDbAware : DB :=
  { fxDb with approvals := [fxApprovedAware] }

/-- Three consecutive annotation creations on sample 1, then one on
sample 2, starting from a store with no annotations. -/
def annSeq1 := create_annotation fxDb fxAlice none 1 AnnoType.bbox "p1" 10 0

def annSeq2 := create_annotation annSeq1.2.2 fxAlice none 1 AnnoType.polygon "p2" 11 1

def annSeq3 := create_annotation annSeq2.2.2 fxAlice none 1 AnnoType.tag "p3" 12 2

def annSeq4 := create_annotation annSeq3.2.2 fxAlice none 2 AnnoType.bbox "p4" 13 3

/-! ## Theorems -/

/-- Claim C4: for every dataset with `visibility=private` and every
authenticated user, `get_dataset` (the visibility gate `canView`) grants
access exactly when the user is the creator or has role admin or data_admin;
every other researcher is denied. -/
theorem claim_C4_canView_private_iff
    (db : DB) (current : User) (ip : Option String) (dataset_id : Int)
    (now : Int) (d : Dataset)
    (hfind : findDataset db dataset_id = some d)
    (hpriv : d.visibility = Visibility.«private») :
    (∃ x, (get_dataset db current ip dataset_id now).1 = Except.ok x) ↔
      (d.created_by = current.id ∨ current.role = UserRole.admin ∨
        current.role = UserRole.data_admin) := by
  unfold get_dataset
  rw [hfind]
  by_cases ho : d.created_by = current.id <;>
    cases hcr : current.role <;>
      simp [hcr, ho, hpriv]

/-- Witness for C4: the creator herself (a researcher) can view her private
dataset, matching the right-hand side of the equivalence. -/
theorem claim_C4_witness :
    (∃ x, (get_dataset fxDb fxAlice none 1 0).1 = Except.ok x) ↔
      (fxPrivateDs.created_by = fxAlice.id ∨ fxAlice.role = UserRole.admin ∨
        fxAlice.role = UserRole.data_admin) :=
  claim_C4_canView_private_iff fxDb fxAlice none 1 0 fxPrivateDs (by rfl) (by rfl)

/-- Helper: `find?` by id after an id-targeted in-place update returns the
updated row. -/
theorem find?_id_update (l : List Approval) (i : Int) (a a' : Approval)
    (h : l.find? (fun x => x.id == i) = some a) (hid : a'.id = i) :
    (l.map (fun x => if x.id = i then a' else x)).find? (fun x => x.id == i) =
      some a' := by
  induction l with
  | nil => simp at h
  | cons x xs ih =>
      by_cases hx : x.id = i
      · simp [hx, hid]
      · rw [List.find?_cons_of_neg _ (by simp [hx])] at h
        simpa [hx, List.find?_cons_of_neg _ (by simp [hx] : ¬((x.id == i) = true))]
          using ih h

/-- Helper: when the approval is found still pending, `review_approval`
commits the reviewed record and audits `ok`. -/
theorem review_pending_eq
    (db : DB) (current : User) (ip : Option String) (approval_id : Int)
    (d : Decision) (ttl : Option Int) (now : Int) (a : Approval)
    (hfind : findApproval db approval_id = some a)
    (hp : a.decision = Decision.pending) :
    review_approval db current ip approval_id d ttl now =
      (Except.ok (reviewedRecord a current d ttl now),
       [log_action (some current.id) "review_approval" ip
          (some a.resource_type.value) (some a.id) AuditResult.ok none now],
       { db with approvals := (db.approvals.map
           (fun x => if x.id = approval_id then reviewedRecord a current d ttl now else x)) }) := by
  unfold review_approval
  rw [hfind]
  simp [hp]

/-- Helper: when the approval is found already decided, `review_approval`
fails with HTTP 400, audits the denial, and leaves the store unchanged. -/
theorem review_nonpending_eq
    (db : DB) (current : User) (ip : Option String) (approval_id : Int)
    (d : Decision) (ttl : Option Int) (now : Int) (a : Approval)
    (hfind : findApproval db approval_id = some a)
    (hp : a.decision ≠ Decision.pending) :
    review_approval db current ip approval_id d ttl now =
      (Except.error (400, "该请求已审核过"),
       [log_action (some current.id) "review_approval" ip none none
          AuditResult.deny (some "already reviewed") now],
       db) := by
  unfold review_approval
  rw [hfind]
  simp [hp]

/-- Claim C2: `review_approval` changes the decision field only from
`pending` to the requested decision, exactly once: on a pending record the
review succeeds and installs the requested decision, and once the decision is
no longer pending any review call (by any reviewer, with any arguments)
fails with the InvalidState error (HTTP 400) and leaves the store — hence
every field of the record — unchanged. -/
theorem claim_C2_review_once
    (db : DB) (current c2 : User) (ip ip2 : Option String) (approval_id : Int)
    (d d2 : Decision) (ttl ttl2 : Option Int) (now now2 : Int) (a : Approval)
    (hfind : findApproval db approval_id = some a) :
    if a.decision = Decision.pending then
      ∃ a', (review_approval db current ip approval_id d ttl now).1 = Except.ok a' ∧
        a'.decision = d ∧ a'.id = a.id ∧
        (d ≠ Decision.pending →
          (review_approval (review_approval db current ip approval_id d ttl now).2.2
              c2 ip2 approval_id d2 ttl2 now2).1 = Except.error (400, "该请求已审核过") ∧
          (review_approval (review_approval db current ip approval_id d ttl now).2.2
              c2 ip2 approval_id d2 ttl2 now2).2.2 =
            (review_approval db current ip approval_id d ttl now).2.2)
    else
      (review_approval db current ip approval_id d ttl now).1 =
          Except.error (400, "该请求已审核过") ∧
        (review_approval db current ip approval_id d ttl now).2.2 = db := by
  have hida : a.id = approval_id := by
    unfold findApproval at hfind
    simpa using List.find?_some hfind
  by_cases hp : a.decision = Decision.pending
  · rw [if_pos hp]
    refine ⟨reviewedRecord a current d ttl now, ?_, rfl, rfl, ?_⟩
    · rw [review_pending_eq db current ip approval_id d ttl now a hfind hp]
    · intro hd
      have hfind2 : findApproval
          (review_approval db current ip approval_id d ttl now).2.2 approval_id =
          some (reviewedRecord a current d ttl now) := by
        rw [review_pending_eq db current ip approval_id d ttl now a hfind hp]
        unfold findApproval at hfind ⊢
        exact find?_id_update _ _ _ _ hfind (by simpa [reviewedRecord] using hida)
      have hnp2 : (reviewedRecord a current d ttl now).decision ≠ Decision.pending := by
        simpa [reviewedRecord] using hd
      rw [review_nonpending_eq _ c2 ip2 approval_id d2 ttl2 now2 _ hfind2 hnp2]
      exact ⟨rfl, rfl⟩
  · rw [if_neg hp]
    rw [review_nonpending_eq db current ip approval_id d ttl now a hfind hp]
    exact ⟨rfl, rfl⟩

/-- Witness for C2: the admin approves the concrete pending approval; a
second review attempt (rejecting it) fails with HTTP 400 and leaves the
store unchanged. -/
theorem claim_C2_witness :
    ∃ a', (review_approval fxDb fxCarol none 5 Decision.approved (some 60) 0).1 =
        Except.ok a' ∧
      a'.decision = Decision.approved ∧ a'.id = fxPending.id ∧
      (Decision.approved ≠ Decision.pending →
        (review_approval (review_approval fxDb fxCarol none 5 Decision.approved (some 60) 0).2.2
            fxCarol none 5 Decision.rejected none 1).1 = Except.error (400, "该请求已审核过") ∧
        (review_approval (review_approval fxDb fxCarol none 5 Decision.approved (some 60) 0).2.2
            fxCarol none 5 Decision.rejected none 1).2.2 =
          (review_approval fxDb fxCarol none 5 Decision.approved (some 60) 0).2.2) := by
  have h := claim_C2_review_once fxDb fxCarol fxCarol none none 5 Decision.approved
      Decision.rejected (some 60) none 0 1 fxPending rfl
  rw [if_pos (show fxPending.decision = Decision.pending from rfl)] at h
  exact h

/-- Claim C10: a review that approves with `ttl_minutes = 0` leaves
`expires_at` null (a permanent grant); the call behaves identically to a
review with no TTL at all. -/
theorem claim_C10_ttl_zero_permanent
    (db : DB) (current : User) (ip : Option String) (approval_id : Int)
    (now : Int) (a : Approval)
    (hfind : findApproval db approval_id = some a)
    (hp : a.decision = Decision.pending)
    (hnull : a.expires_at = none) :
    (∃ a', (review_approval db current ip approval_id Decision.approved (some 0) now).1 =
        Except.ok a' ∧ a'.expires_at = none) ∧
    review_approval db current ip approval_id Decision.approved (some 0) now =
      review_approval db current ip approval_id Decision.approved none now := by
  have hrec : reviewedRecord a current Decision.approved (some 0) now =
      reviewedRecord a current Decision.approved none now := by
    simp [reviewedRecord, truthyInt]
  constructor
  · refine ⟨reviewedRecord a current Decision.approved (some 0) now, ?_, ?_⟩
    · rw [review_pending_eq db current ip approval_id Decision.approved (some 0) now a hfind hp]
    · simp [reviewedRecord, truthyInt, hnull]
  · rw [review_pending_eq db current ip approval_id Decision.approved (some 0) now a hfind hp,
      review_pending_eq db current ip approval_id Decision.approved none now a hfind hp, hrec]

/-- Witness for C10 at the concrete pending approval. -/
theorem claim_C10_witness :
    (∃ a', (review_approval fxDb fxCarol none 5 Decision.approved (some 0) 10).1 =
        Except.ok a' ∧ a'.expires_at = none) ∧
    review_approval fxDb fxCarol none 5 Decision.approved (some 0) 10 =
      review_approval fxDb fxCarol none 5 Decision.approved none 10 :=
  claim_C10_ttl_zero_permanent fxDb fxCarol none 5 10 fxPending rfl rfl rfl

/-- Counterexample to C7 as stated: approving the concrete pending approval
with the provided TTL `0` leaves `expires_at` null, not `review time + 0
minutes` as the claim requires for every provided TTL. -/
theorem claim_C7_cex :
    (review_approval fxDb fxCarol none 5 Decision.approved (some 0) 10).1 =
        Except.ok (reviewedRecord fxPending fxCarol Decision.approved (some 0) 10) ∧
    (reviewedRecord fxPending fxCarol Decision.approved (some 0) 10).expires_at = none ∧
    (reviewedRecord fxPending fxCarol Decision.approved (some 0) 10).expires_at ≠
      some (utcnow_naive (10 + 0)) := by
  refine ⟨?_, by simp [reviewedRecord, truthyInt, fxPending],
    by simp [reviewedRecord, truthyInt, fxPending]⟩
  rw [review_pending_eq fxDb fxCarol none 5 Decision.approved (some 0) 10 fxPending rfl rfl]

/-- Claim C7 (amended): on approval with a provided NONZERO TTL the record's
`expires_at` becomes `review time + ttl minutes`; with no TTL, or with the
provided TTL `0`, `expires_at` is left unchanged (null for a fresh request,
meaning the grant never expires). -/
theorem claim_C7_amended_ttl
    (db : DB) (current : User) (ip : Option String) (approval_id : Int)
    (ttl : Option Int) (now : Int) (a : Approval)
    (hfind : findApproval db approval_id = some a)
    (hp : a.decision = Decision.pending) :
    ∃ a', (review_approval db current ip approval_id Decision.approved ttl now).1 =
        Except.ok a' ∧
      a'.expires_at =
        (match ttl with
         | some t => if t ≠ 0 then some (utcnow_naive (now + t)) else a.expires_at
         | none => a.expires_at) := by
  refine ⟨reviewedRecord a current Decision.approved ttl now, ?_, ?_⟩
  · rw [review_pending_eq db current ip approval_id Decision.approved ttl now a hfind hp]
  · cases ttl with
    | none => simp [reviewedRecord, truthyInt]
    | some t => by_cases ht : t = 0 <;> simp [reviewedRecord, truthyInt, ht]

/-- Witness for the amended C7: a 60-minute TTL at review time 10 yields
`expires_at` at minute 70. -/
theorem claim_C7_witness :
    ∃ a', (review_approval fxDb fxCarol none 5 Decision.approved (some 60) 10).1 =
        Except.ok a' ∧
      a'.expires_at =
        (match (some 60 : Option Int) with
         | some t => if t ≠ 0 then some (utcnow_naive (10 + t)) else fxPending.expires_at
         | none => fxPending.expires_at) :=
  claim_C7_amended_ttl fxDb fxCarol none 5 (some 60) 10 fxPending rfl rfl

/-- Helper: a fold of `max` never drops below its initial value. -/
theorem le_foldl_max (xs : List Int) (init : Int) : init ≤ xs.foldl max init := by
  induction xs generalizing init with
  | nil => simp
  | cons x xs ih => exact le_trans (le_max_left init x) (ih (max init x))

/-- Helper: a fold of `max` dominates every element of the list. -/
theorem mem_le_foldl_max (xs : List Int) (init : Int) :
    ∀ v ∈ xs, v ≤ xs.foldl max init := by
  induction xs generalizing init with
  | nil => simp
  | cons x xs ih =>
      intro v hv
      rcases List.mem_cons.mp hv with h | h
      · subst h
        exact le_trans (le_max_right init v) (le_foldl_max xs (max init v))
      · exact ih (max init x) v h

/-- Helper: `maxRow` is an upper bound of the list. -/
theorem maxRow_ub (xs : List Int) : ∀ v ∈ xs, v ≤ maxRow xs := by
  cases xs with
  | nil => simp
  | cons x xs =>
      intro v hv
      rcases List.mem_cons.mp hv with h | h
      · subst h
        exact le_foldl_max xs v
      · exact mem_le_foldl_max xs x v h

/-- Helper: appending a value at least as large as the running maximum makes
it the new maximum. -/
theorem maxRow_append_ge (xs : List Int) (y : Int) (hge : maxRow xs ≤ y) :
    maxRow (xs ++ [y]) = y := by
  cases xs with
  | nil => rfl
  | cons x xs =>
      show (xs ++ [y]).foldl max x = y
      rw [List.foldl_append]
      exact max_eq_right (by simpa [maxRow] using hge)

/-- Claim C8: annotation version numbers are assigned per sample as the
maximum existing version plus one, starting at 1 when the sample has none;
the concrete three-in-a-row sequence on sample 1 yields versions 1, 2, 3,
and a following creation on sample 2 starts again at 1; creating an
annotation bumps that sample's running maximum by exactly one and leaves
every other sample's maximum untouched. -/
theorem claim_C8_annotation_versioning
    (db : DB) (current : User) (ip : Option String) (sample_id : Int)
    (anno_type : AnnoType) (payload : String) (new_id : Int) (now : Int)
    (s : Sample) (hfind : findSample db sample_id = some s) :
    (annSeq1.1.toOption.map (fun x => x.version) = some 1 ∧
     annSeq2.1.toOption.map (fun x => x.version) = some 2 ∧
     annSeq3.1.toOption.map (fun x => x.version) = some 3 ∧
     annSeq4.1.toOption.map (fun x => x.version) = some 1) ∧
    ∃ anno, ( create_annotation db current ip sample_id anno_type payload new_id now).1 =
        Except.ok anno ∧
      anno.version = last_version_for db.annotations sample_id + 1 ∧
      (∀ b ∈ db.annotations, b.sample_id = sample_id → b.version < anno.version) ∧
      (db.annotations.filter (fun b => b.sample_id == sample_id) = [] →
        anno.version = 1) ∧
      last_version_for
          ( create_annotation db current ip sample_id anno_type payload new_id now).2.2.annotations
          sample_id = last_version_for db.annotations sample_id + 1 ∧
      (∀ sid', sid' ≠ sample_id →
        last_version_for
            ( create_annotation db current ip sample_id anno_type payload new_id now).2.2.annotations
            sid' = last_version_for db.annotations sid') := by
  refine ⟨⟨by rfl, by rfl, by rfl, by rfl⟩, ?_⟩
  have hrun : create_annotation db current ip sample_id anno_type payload new_id now =
      (Except.ok
        { id := new_id, sample_id := sample_id, author_id := current.id
          anno_type := anno_type, payload_json := payload
          status := AnnoStatus.submitted
          version := last_version_for db.annotations sample_id + 1
          created_at := utcnow_naive now },
       [log_action (some current.id) "create_annotation" ip (some "annotation")
          (some new_id) AuditResult.ok none now],
       { db with annotations := (db.annotations ++
          [{ id := new_id, sample_id := sample_id, author_id := current.id
             anno_type := anno_type, payload_json := payload
             status := AnnoStatus.submitted
             version := last_version_for db.annotations sample_id + 1
             created_at := utcnow_naive now }]) }) := by
    unfold create_annotation
    rw [hfind]
  refine ⟨_, by rw [hrun], rfl, ?_, ?_, ?_, ?_⟩
  · intro b hb hbs
    have hmem : b.version ∈
        (db.annotations.filter (fun a => a.sample_id == sample_id)).map
          (fun a => a.version) :=
      List.mem_map_of_mem _ (List.mem_filter.mpr ⟨hb, by simp [hbs]⟩)
    have := maxRow_ub _ _ hmem
    show b.version < last_version_for db.annotations sample_id + 1
    unfold last_version_for
    omega
  · intro hempty
    unfold last_version_for
    rw [hempty]
    rfl
  · rw [hrun]
    unfold last_version_for
    rw [List.filter_append, List.map_append]
    simp only [List.filter_cons, List.filter_nil]
    rw [if_pos (by simp)]
    exact maxRow_append_ge _ _ (le_of_lt (lt_add_one _))
  · intro sid' hne
    rw [hrun]
    unfold last_version_for
    rw [List.filter_append]
    simp only [List.filter_cons, List.filter_nil]
    rw [if_neg (by simp [Ne.symm hne])]
    simp

/-- Witness for C8: a fresh annotation on sample 1 of the concrete store. -/
theorem claim_C8_witness :
    ∃ anno, ( create_annotation fxDb fxAlice none 1 AnnoType.bbox "p" 42 0).1 =
        Except.ok anno ∧
      anno.version = last_version_for fxDb.annotations 1 + 1 ∧
      (∀ b ∈ fxDb.annotations, b.sample_id = 1 → b.version < anno.version) ∧
      (fxDb.annotations.filter (fun b => b.sample_id == 1) = [] → anno.version = 1) ∧
      last_version_for
          ( create_annotation fxDb fxAlice none 1 AnnoType.bbox "p" 42 0).2.2.annotations 1 =
        last_version_for fxDb.annotations 1 + 1 ∧
      (∀ sid', sid' ≠ 1 →
        last_version_for
            ( create_annotation fxDb fxAlice none 1 AnnoType.bbox "p" 42 0).2.2.annotations sid' =
          last_version_for fxDb.annotations sid') :=
  (claim_C8_annotation_versioning fxDb fxAlice none 1 AnnoType.bbox "p" 42 0 fxSample rfl).2

/-- Claim C9: an upload whose content hashes to a checksum already stored on
ANY sample fails with HTTP 409 Conflict and leaves the store unchanged —
whatever dataset the new sample targets and whatever dataset holds the
existing sample — provided the request got past the earlier checks
(allowed extension, existing target dataset). -/
theorem claim_C9_upload_checksum_conflict
    (sha256_of_bytes : String → String) (db : DB) (root : String)
    (fs : List String) (current : User) (ip : Option String) (dataset_id : Int)
    (filename content : String) (mime : Option String) (new_id : Int) (now : Int)
    (hext : splitext_ext (str_lower filename) ∈ ALLOWED_EXT)
    (hds : (findDataset db dataset_id).isSome = true)
    (hdup : ∃ s ∈ db.samples, s.sha256 = sha256_of_bytes content) :
    (upload_sample sha256_of_bytes db root fs current ip dataset_id filename
        content mime new_id now).1 = Except.error (409, "该文件已存在（SHA256重复）") ∧
    (upload_sample sha256_of_bytes db root fs current ip dataset_id filename
        content mime new_id now).2.2.1 = db ∧
    (∃ l, (upload_sample sha256_of_bytes db root fs current ip dataset_id filename
        content mime new_id now).2.1 = [l] ∧
      l.result = AuditResult.deny ∧ l.detail = some "sha256 duplicate") := by
  obtain ⟨d, hd⟩ := Option.isSome_iff_exists.mp hds
  have hfound : (db.samples.find? (fun s => s.sha256 == sha256_of_bytes content)).isSome = true := by
    rcases hdup with ⟨s, hs, hsha⟩
    exact List.find?_isSome.mpr ⟨s, hs, by simp [hsha]⟩
  obtain ⟨s', hs'⟩ := Option.isSome_iff_exists.mp hfound
  simp only [upload_sample]
  rw [if_neg (not_not_intro hext), hd, hs']
  exact ⟨rfl, rfl, _, rfl, rfl, rfl⟩

/-- Witness for C9: uploading bytes with the already-stored checksum of the
dataset-1 sample into dataset 2 is rejected with 409. -/
theorem claim_C9_witness :
    (upload_sample (fun s => s) fxDb "/r" [] fxBob none 2 "x.png" "abc" none 99 0).1 =
        Except.error (409, "该文件已存在（SHA256重复）") ∧
    (upload_sample (fun s => s) fxDb "/r" [] fxBob none 2 "x.png" "abc" none 99 0).2.2.1 =
        fxDb ∧
    (∃ l, (upload_sample (fun s => s) fxDb "/r" [] fxBob none 2 "x.png" "abc" none 99 0).2.1 =
        [l] ∧ l.result = AuditResult.deny ∧ l.detail = some "sha256 duplicate") :=
  claim_C9_upload_checksum_conflict (fun s => s) fxDb "/r" [] fxBob none 2 "x.png" "abc"
    none 99 0 (by decide) (by rfl) ⟨fxSample, by simp [fxDb, fxSample], rfl⟩

/-- Helper: `ensure_utc` on a present datetime is `ensureDt`. -/
theorem ensure_utc_some (e : PyDateTime) : ensure_utc (some e) = some (ensureDt e) := by
  obtain ⟨v, o⟩ := e
  cases o <;> rfl

/-- Helper: `ensureDt` always carries an offset. -/
theorem ensureDt_offset (e : PyDateTime) : ∃ o, (ensureDt e).offset = some o := by
  obtain ⟨v, o⟩ := e
  cases o <;> exact ⟨_, rfl⟩

/-- Helper: comparing an aware datetime against the aware `utc_now` decides
by absolute UTC instants. -/
theorem pyLt_utc_now (e : PyDateTime) (o : Int) (h : e.offset = some o) (now : Int) :
    pyLt e (utc_now now) = Except.ok (decide (absUtc e < now)) := by
  unfold pyLt utc_now absUtc
  rw [h]
  simp [h]

/-- Helper: comparing a naive datetime against the naive `datetime.utcnow()`
decides by raw wall-clock values. -/
theorem pyLt_utcnow_naive (e : PyDateTime) (h : e.offset = none) (now : Int) :
    pyLt e (utcnow_naive now) = Except.ok (decide (e.value < now)) := by
  unfold pyLt utcnow_naive
  rw [h]

/-- Helper: comparing an aware datetime against the naive `datetime.utcnow()`
raises `TypeError`. -/
theorem pyLt_mixed (e : PyDateTime) (o : Int) (h : e.offset = some o) (now : Int) :
    pyLt e (utcnow_naive now) = Except.error () := by
  unfold pyLt utcnow_naive
  rw [h]

/-- Counterexample to C3 as stated: the dataset download path compares the
stored `expires_at` directly against the naive `datetime.utcnow()` — on a
timezone-aware stored timestamp whose instant (minute 100) is strictly in
the future of the check time (minute 50) the call raises instead of
granting; and the sample download path grants when the normalized expiry
equals the check time, although that instant is not strictly in the
future. -/
theorem claim_C3_cex :
    download_dataset fxDbAware "/r" ["/r/dataset_1"] fxAlice none 1 50 =
        Except.error () ∧
    fxApprovedAware.expires_at = some ⟨100, some 0⟩ ∧
    (50 : Int) < absUtc ⟨100, some 0⟩ ∧
    download_sample fxDbApproved "/r" ["/r/dataset_1/a.png"] fxAlice none 1 50 =
      Except.ok (Except.ok ("/r" ++ "/" ++ fxSample.file_path),
        [log_action (some fxAlice.id) "download_sample" none (some "sample")
          (some 1) AuditResult.ok none 50]) ∧
    ensure_utc fxApprovedS.expires_at = some ⟨50, some 0⟩ ∧
    ¬ (50 : Int) < absUtc ⟨50, some 0⟩ := by
  refine ⟨by rfl, by rfl, by decide, by rfl, by rfl, by decide⟩

/-- Claim C3 (amended): only the sample download path normalizes the stored
`expires_at` (a naive value gets UTC attached) and compares it against the
aware UTC now by absolute instant, granting whenever the expiry is not
strictly earlier than the check time (so equality still grants). The
dataset download path compares the raw stored value directly against a
naive UTC now: a naive stored timestamp is compared by wall clock (equality
likewise granting), and a timezone-aware stored timestamp makes the
comparison raise instead of deciding. -/
theorem claim_C3_amended_expiry
    (db : DB) (root : String) (fs : List String) (current : User)
    (ip : Option String) (did sid now : Int) (d : Dataset) (smp : Sample)
    (a b : Approval) (ea eb : PyDateTime)
    (hd : findDataset db did = some d)
    (hs : findSample db sid = some smp)
    (hla : latestApprovalFor db current.id ResourceType.dataset did = some a)
    (hlb : latestApprovalFor db current.id ResourceType.sample sid = some b)
    (hadec : a.decision = Decision.approved)
    (hbdec : b.decision = Decision.approved)
    (hae : a.expires_at = some ea)
    (hbe : b.expires_at = some eb)
    (hfd : (root ++ "/dataset_" ++ toString did) ∈ fs)
    (hfs : (root ++ "/" ++ smp.file_path) ∈ fs) :
    download_sample db root fs current ip sid now =
      Except.ok (if absUtc (ensureDt eb) < now
        then (Except.error (403, "审批已过期"),
          [log_action (some current.id) "download_sample" ip none none
            AuditResult.deny (some "approval expired") now])
        else (Except.ok (root ++ "/" ++ smp.file_path),
          [log_action (some current.id) "download_sample" ip (some "sample")
            (some sid) AuditResult.ok none now])) ∧
    (eb.offset = none → absUtc (ensureDt eb) = eb.value) ∧
    (ea.offset = none →
      download_dataset db root fs current ip did now =
        Except.ok (if ea.value < now
          then (Except.error (403, "审批已过期"),
            [log_action (some current.id) "download_dataset" ip none none
              AuditResult.deny (some "approval expired") now])
          else (Except.ok ("dataset_" ++ toString did ++ ".zip"),
            [log_action (some current.id) "download_dataset" ip (some "dataset")
              (some did) AuditResult.ok none now]))) ∧
    (∀ o, ea.offset = some o →
      download_dataset db root fs current ip did now = Except.error ()) := by
  refine ⟨?_, ?_, ?_, ?_⟩
  · obtain ⟨o, ho⟩ := ensureDt_offset eb
    unfold download_sample
    rw [hs, hlb]
    by_cases hlt : absUtc (ensureDt eb) < now
    · simp [hbdec, hbe, ensure_utc_some, pyLt_utc_now (ensureDt eb) o ho now, hlt]
    · simp [hbdec, hbe, ensure_utc_some, pyLt_utc_now (ensureDt eb) o ho now, hlt, hfs]
  · intro hnone
    obtain ⟨v, o⟩ := eb
    simp only at hnone
    subst hnone
    simp [absUtc, ensureDt]
  · intro hnone
    unfold download_dataset
    rw [hd, hla]
    by_cases hlt : ea.value < now
    · simp [hadec, hae, pyLt_utcnow_naive ea hnone now, hlt]
    · simp [hadec, hae, pyLt_utcnow_naive ea hnone now, hlt, hfd]
  · intro o ho
    unfold download_dataset
    rw [hd, hla]
    simp [hadec, hae, pyLt_mixed ea o ho now]

/-- Witness for the amended C3: a store holding a naive dataset expiry at
minute 100 and a naive sample expiry at minute 50, checked at minute 10 with
both storage objects present. -/
theorem claim_C3_witness :
    download_sample fxDbApproved "/r" ["/r/dataset_1", "/r/dataset_1/a.png"]
        fxAlice none 1 10 =
      Except.ok (if absUtc (ensureDt ⟨50, none⟩) < 10
        then (Except.error (403, "审批已过期"),
          [log_action (some fxAlice.id) "download_sample" none none none
            AuditResult.deny (some "approval expired") 10])
        else (Except.ok ("/r" ++ "/" ++ fxSample.file_path),
          [log_action (some fxAlice.id) "download_sample" none (some "sample")
            (some 1) AuditResult.ok none 10])) ∧
    ((⟨50, none⟩ : PyDateTime).offset = none → absUtc (ensureDt ⟨50, none⟩) = 50) ∧
    ((⟨100, none⟩ : PyDateTime).offset = none →
      download_dataset fxDbApproved "/r" ["/r/dataset_1", "/r/dataset_1/a.png"]
          fxAlice none 1 10 =
        Except.ok (if (100 : Int) < 10
          then (Except.error (403, "审批已过期"),
            [log_action (some fxAlice.id) "download_dataset" none none none
              AuditResult.deny (some "approval expired") 10])
          else (Except.ok ("dataset_" ++ toString (1 : Int) ++ ".zip"),
            [log_action (some fxAlice.id) "download_dataset" none (some "dataset")
              (some 1) AuditResult.ok none 10]))) ∧
    (∀ o, (⟨100, none⟩ : PyDateTime).offset = some o →
      download_dataset fxDbApproved "/r" ["/r/dataset_1", "/r/dataset_1/a.png"]
          fxAlice none 1 10 = Except.error ()) :=
  claim_C3_amended_expiry fxDbApproved "/r" ["/r/dataset_1", "/r/dataset_1/a.png"]
    fxAlice none 1 1 10 fxPrivateDs fxSample fxApprovedD fxApprovedS
    ⟨100, none⟩ ⟨50, none⟩ rfl rfl rfl rfl rfl rfl rfl rfl
    (by decide) (by decide)

/-- Claim C1: both download authorization checks evaluate their conditions
in the spec's fixed order — resource exists, latest approval exists,
decision approved, not expired, storage object exists — with the first
failing condition short-circuiting into its listed reason's HTTP error and
a single audit row whose result is `error` for a missing storage object and
`deny` for every earlier failure (`ok` on full success). Stated as a
refinement: each router call renders exactly the outcome of the spec's
cascade `authorizeDownloadSpec` on the extracted conditions, whenever the
expiry comparison itself completes (`hbD`/`hbS`). -/
theorem claim_C1_download_sequence
    (db : DB) (root : String) (fs : List String) (current : User)
    (ip : Option String) (did sid now : Int) (bD bS : Bool)
    (hbD : datasetExpiry db current.id did now = Except.ok bD)
    (hbS : sampleExpiry db current.id sid now = Except.ok bS) :
    download_dataset db root fs current ip did now =
      Except.ok (renderDataset current ip did now
        (authorizeDownloadSpec (findDataset db did).isSome
          (latestApprovalFor db current.id ResourceType.dataset did) bD
          (decide ((root ++ "/dataset_" ++ toString did) ∈ fs)))) ∧
    download_sample db root fs current ip sid now =
      Except.ok (renderSample current ip sid
        ((findSample db sid).elim "" (fun s => root ++ "/" ++ s.file_path)) now
        (authorizeDownloadSpec (findSample db sid).isSome
          (latestApprovalFor db current.id ResourceType.sample sid) bS
          (decide (((findSample db sid).elim ""
            (fun s => root ++ "/" ++ s.file_path)) ∈ fs)))) := by
  constructor
  · unfold datasetExpiry at hbD
    unfold download_dataset
    cases hfd : findDataset db did with
    | none =>
        simp [authorizeDownloadSpec, renderDataset, datasetHttpOfReason,
          datasetDetailOfReason, auditResultOfReason]
    | some d =>
        cases hla : latestApprovalFor db current.id ResourceType.dataset did with
        | none =>
            simp [authorizeDownloadSpec, renderDataset, datasetHttpOfReason,
              datasetDetailOfReason, auditResultOfReason]
        | some a =>
            rw [hla] at hbD
            simp only [] at hbD
            by_cases hdec : a.decision = Decision.approved
            · cases he : a.expires_at with
              | none =>
                  rw [he] at hbD
                  simp only [] at hbD
                  cases hbD
                  by_cases hm : (root ++ "/dataset_" ++ toString did) ∈ fs <;>
                    simp [hdec, he, hm, authorizeDownloadSpec, renderDataset,
                      datasetHttpOfReason, datasetDetailOfReason, auditResultOfReason]
              | some e =>
                  rw [he] at hbD
                  simp only [] at hbD
                  cases hbv : bD with
                  | true =>
                      subst hbv
                      simp [hdec, he, hbD, authorizeDownloadSpec, renderDataset,
                        datasetHttpOfReason, datasetDetailOfReason, auditResultOfReason]
                  | false =>
                      subst hbv
                      by_cases hm : (root ++ "/dataset_" ++ toString did) ∈ fs <;>
                        simp [hdec, he, hbD, hm, authorizeDownloadSpec, renderDataset,
                          datasetHttpOfReason, datasetDetailOfReason, auditResultOfReason]
            · simp [hdec, authorizeDownloadSpec, renderDataset, datasetHttpOfReason,
                datasetDetailOfReason, auditResultOfReason]
  · unfold sampleExpiry at hbS
    unfold download_sample
    cases hfs : findSample db sid with
    | none =>
        simp [authorizeDownloadSpec, renderSample, sampleHttpOfReason,
          sampleDetailOfReason, auditResultOfReason]
    | some smp =>
        cases hla : latestApprovalFor db current.id ResourceType.sample sid with
        | none =>
            simp [authorizeDownloadSpec, renderSample, sampleHttpOfReason,
              sampleDetailOfReason, auditResultOfReason]
        | some a =>
            rw [hla] at hbS
            simp only [] at hbS
            by_cases hdec : a.decision = Decision.approved
            · cases he : ensure_utc a.expires_at with
              | none =>
                  rw [he] at hbS
                  simp only [] at hbS
                  cases hbS
                  by_cases hm : (root ++ "/" ++ smp.file_path) ∈ fs <;>
                    simp [hdec, he, hm, authorizeDownloadSpec, renderSample,
                      sampleHttpOfReason, sampleDetailOfReason, auditResultOfReason]
              | some e =>
                  rw [he] at hbS
                  simp only [] at hbS
                  cases hbv : bS with
                  | true =>
                      subst hbv
                      simp [hdec, he, hbS, authorizeDownloadSpec, renderSample,
                        sampleHttpOfReason, sampleDetailOfReason, auditResultOfReason]
                  | false =>
                      subst hbv
                      by_cases hm : (root ++ "/" ++ smp.file_path) ∈ fs <;>
                        simp [hdec, he, hbS, hm, authorizeDownloadSpec, renderSample,
                          sampleHttpOfReason, sampleDetailOfReason, auditResultOfReason]
            · simp [hdec, authorizeDownloadSpec, renderSample, sampleHttpOfReason,
                sampleDetailOfReason, auditResultOfReason]

/-- Witness for C1: the concrete approved store at minute 10, both storage
objects present — both checks complete and render the spec cascade's grant. -/
theorem claim_C1_witness :
    download_dataset fxDbApproved "/r" ["/r/dataset_1", "/r/dataset_1/a.png"]
        fxAlice none 1 10 =
      Except.ok (renderDataset fxAlice none 1 10
        (authorizeDownloadSpec (findDataset fxDbApproved 1).isSome
          (latestApprovalFor fxDbApproved fxAlice.id ResourceType.dataset 1) false
          (decide (("/r" ++ "/dataset_" ++ toString (1 : Int)) ∈
            (["/r/dataset_1", "/r/dataset_1/a.png"] : List String))))) ∧
    download_sample fxDbApproved "/r" ["/r/dataset_1", "/r/dataset_1/a.png"]
        fxAlice none 1 10 =
      Except.ok (renderSample fxAlice none 1
        ((findSample fxDbApproved 1).elim "" (fun s => "/r" ++ "/" ++ s.file_path)) 10
        (authorizeDownloadSpec (findSample fxDbApproved 1).isSome
          (latestApprovalFor fxDbApproved fxAlice.id ResourceType.sample 1) false
          (decide (((findSample fxDbApproved 1).elim ""
            (fun s => "/r" ++ "/" ++ s.file_path)) ∈
              (["/r/dataset_1", "/r/dataset_1/a.png"] : List String))))) :=
  claim_C1_download_sequence fxDbApproved "/r" ["/r/dataset_1", "/r/dataset_1/a.png"]
    fxAlice none 1 1 10 false false (by rfl) (by rfl)

/-- Claim C5: whenever a download authorization check completes (grant,
denial, or storage error), it appends exactly one audit row, whose action
names the operation and whose result class matches the outcome: `ok` for a
grant, `deny` for a 4xx permission failure, `error` for the 500 storage
fault. -/
theorem claim_C5_audit_completeness
    (db : DB) (root : String) (fs : List String) (current : User)
    (ip : Option String) (did sid now : Int)
    (resD resS : Except (Nat × String) String) (logsD logsS : List AuditLog)
    (hD : download_dataset db root fs current ip did now = Except.ok (resD, logsD))
    (hS : download_sample db root fs current ip sid now = Except.ok (resS, logsS)) :
    (∃ l, logsD = [l] ∧ l.action = "download_dataset" ∧ outcomeMatches resD l.result) ∧
    (∃ l, logsS = [l] ∧ l.action = "download_sample" ∧ outcomeMatches resS l.result) := by
  constructor
  · unfold download_dataset at hD
    cases hfd : findDataset db did with
    | none =>
        rw [hfd] at hD
        cases hD
        exact ⟨_, rfl, rfl, by simp [outcomeMatches, log_action]⟩
    | some d =>
        rw [hfd] at hD
        simp only [] at hD
        cases hla : latestApprovalFor db current.id ResourceType.dataset did with
        | none =>
            rw [hla] at hD
            cases hD
            exact ⟨_, rfl, rfl, by simp [outcomeMatches, log_action]⟩
        | some a =>
            rw [hla] at hD
            simp only [] at hD
            by_cases hdec : a.decision = Decision.approved
            · rw [if_neg (by simp [hdec])] at hD
              cases he : a.expires_at with
              | none =>
                  rw [he] at hD
                  simp only [] at hD
                  by_cases hm : (root ++ "/dataset_" ++ toString did) ∈ fs
                  · rw [if_pos hm] at hD
                    cases hD
                    exact ⟨_, rfl, rfl, by simp [outcomeMatches, log_action]⟩
                  · rw [if_neg hm] at hD
                    cases hD
                    exact ⟨_, rfl, rfl, by simp [outcomeMatches, log_action]⟩
              | some e =>
                  rw [he] at hD
                  simp only [] at hD
                  cases hlt : pyLt e (utcnow_naive now) with
                  | error u => rw [hlt] at hD; cases hD
                  | ok b =>
                      rw [hlt] at hD
                      cases b with
                      | true =>
                          cases hD
                          exact ⟨_, rfl, rfl, by simp [outcomeMatches, log_action]⟩
                      | false =>
                          by_cases hm : (root ++ "/dataset_" ++ toString did) ∈ fs
                          · rw [if_pos hm] at hD
                            cases hD
                            exact ⟨_, rfl, rfl, by simp [outcomeMatches, log_action]⟩
                          · rw [if_neg hm] at hD
                            cases hD
                            exact ⟨_, rfl, rfl, by simp [outcomeMatches, log_action]⟩
            · rw [if_pos (by simp [hdec])] at hD
              cases hD
              exact ⟨_, rfl, rfl, by simp [outcomeMatches, log_action]⟩
  · unfold download_sample at hS
    cases hfs : findSample db sid with
    | none =>
        rw [hfs] at hS
        cases hS
        exact ⟨_, rfl, rfl, by simp [outcomeMatches, log_action]⟩
    | some smp =>
        rw [hfs] at hS
        simp only [] at hS
        cases hla : latestApprovalFor db current.id ResourceType.sample sid with
        | none =>
            rw [hla] at hS
            cases hS
            exact ⟨_, rfl, rfl, by simp [outcomeMatches, log_action]⟩
        | some a =>
            rw [hla] at hS
            simp only [] at hS
            by_cases hdec : a.decision = Decision.approved
            · rw [if_neg (by simp [hdec])] at hS
              cases he : ensure_utc a.expires_at with
              | none =>
                  rw [he] at hS
                  simp only [] at hS
                  by_cases hm : (root ++ "/" ++ smp.file_path) ∈ fs
                  · rw [if_pos hm] at hS
                    cases hS
                    exact ⟨_, rfl, rfl, by simp [outcomeMatches, log_action]⟩
                  · rw [if_neg hm] at hS
                    cases hS
                    exact ⟨_, rfl, rfl, by simp [outcomeMatches, log_action]⟩
              | some e =>
                  rw [he] at hS
                  simp only [] at hS
                  cases hlt : pyLt e (utc_now now) with
                  | error u => rw [hlt] at hS; cases hS
                  | ok b =>
                      rw [hlt] at hS
                      cases b with
                      | true =>
                          cases hS
                          exact ⟨_, rfl, rfl, by simp [outcomeMatches, log_action]⟩
                      | false =>
                          by_cases hm : (root ++ "/" ++ smp.file_path) ∈ fs
                          · rw [if_pos hm] at hS
                            cases hS
                            exact ⟨_, rfl, rfl, by simp [outcomeMatches, log_action]⟩
                          · rw [if_neg hm] at hS
                            cases hS
                            exact ⟨_, rfl, rfl, by simp [outcomeMatches, log_action]⟩
            · rw [if_pos (by simp [hdec])] at hS
              cases hS
              exact ⟨_, rfl, rfl, by simp [outcomeMatches, log_action]⟩

/-- Witness for C5: the completed grant calls of the concrete approved store
carry exactly one audit row each, with matching action and result. -/
theorem claim_C5_witness :
    (∃ l, [log_action (some fxAlice.id) "download_dataset" none (some "dataset")
        (some (1 : Int)) AuditResult.ok none 10] = [l] ∧
      l.action = "download_dataset" ∧
      outcomeMatches (Except.ok ("dataset_" ++ toString (1 : Int) ++ ".zip")) l.result) ∧
    (∃ l, [log_action (some fxAlice.id) "download_sample" none (some "sample")
        (some (1 : Int)) AuditResult.ok none 10] = [l] ∧
      l.action = "download_sample" ∧
      outcomeMatches (Except.ok ("/r" ++ "/" ++ fxSample.file_path)) l.result) :=
  claim_C5_audit_completeness fxDbApproved "/r" ["/r/dataset_1", "/r/dataset_1/a.png"]
    fxAlice none 1 1 10
    (Except.ok ("dataset_" ++ toString (1 : Int) ++ ".zip"))
    (Except.ok ("/r" ++ "/" ++ fxSample.file_path))
    [log_action (some fxAlice.id) "download_dataset" none (some "dataset")
      (some (1 : Int)) AuditResult.ok none 10]
    [log_action (some fxAlice.id) "download_sample" none (some "sample")
      (some (1 : Int)) AuditResult.ok none 10]
    (by rfl) (by rfl)

/-- Counterexample to C6 as stated: deleting a dataset id that does not
exist surfaces HTTP 404 while appending NO audit entry at all, so not every
denial/error path writes exactly one audit entry. -/
theorem claim_C6_cex :
    (delete_dataset fxDb "/r" [] fxCarol none 99 0).1 =
        Except.error (404, "数据集不存在") ∧
    (delete_dataset fxDb "/r" [] fxCarol none 99 0).2.1 = [] :=
  ⟨rfl, rfl⟩

/-- Claim C6 (amended): across the embedded operations, every denial or
error path appends exactly one audit entry before the HTTP error is
surfaced, with these exceptions, which append none: the resource-not-found
404 path of `delete_dataset` and `delete_sample` (their 403 permission path
still appends exactly one), and the authentication/role failures of
`get_current_user` and `require_role`, which never write audit rows. -/
theorem claim_C6_amended_denial_audit :
    (∀ db current ip dataset_id now e,
      (get_dataset db current ip dataset_id now).1 = Except.error e →
      ∃ l, (get_dataset db current ip dataset_id now).2 = [l]) ∧
    (∀ db root fs current ip did now res logs e,
      download_dataset db root fs current ip did now = Except.ok (res, logs) →
      res = Except.error e → ∃ l, logs = [l]) ∧
    (∀ db root fs current ip sid now res logs e,
      download_sample db root fs current ip sid now = Except.ok (res, logs) →
      res = Except.error e → ∃ l, logs = [l]) ∧
    (∀ h db root fs current ip did filename content mime new_id now e,
      (upload_sample h db root fs current ip did filename content mime new_id now).1 =
        Except.error e →
      ∃ l, (upload_sample h db root fs current ip did filename content mime
        new_id now).2.1 = [l]) ∧
    (∀ db current ip sid ty payload new_id now e,
      ( create_annotation db current ip sid ty payload new_id now).1 = Except.error e →
      ∃ l, ( create_annotation db current ip sid ty payload new_id now).2.1 = [l]) ∧
    (∀ db current ip aid d ttl now e,
      (review_approval db current ip aid d ttl now).1 = Except.error e →
      ∃ l, (review_approval db current ip aid d ttl now).2.1 = [l]) ∧
    (∀ db root fs current ip did now e,
      (delete_dataset db root fs current ip did now).1 = Except.error e →
      (e.1 = 404 ∧ (delete_dataset db root fs current ip did now).2.1 = []) ∨
      (e.1 = 403 ∧ ∃ l, (delete_dataset db root fs current ip did now).2.1 = [l])) ∧
    (∀ db root fs current ip sid now e,
      (delete_sample db root fs current ip sid now).1 = Except.error e →
      (e.1 = 404 ∧ (delete_sample db root fs current ip sid now).2.1 = []) ∨
      (e.1 = 403 ∧ ∃ l, (delete_sample db root fs current ip sid now).2.1 = [l])) := by
  refine ⟨?_, ?_, ?_, ?_, ?_, ?_, ?_, ?_⟩
  · intro db current ip dataset_id now e h
    unfold get_dataset at h ⊢
    cases hfd : findDataset db dataset_id with
    | none => exact ⟨_, rfl⟩
    | some d =>
        rw [hfd] at h
        simp only [] at h ⊢
        by_cases hc : current.role = UserRole.researcher ∧
            (d.visibility = Visibility.«private» ∧ d.created_by ≠ current.id)
        · rw [if_pos hc]
          exact ⟨_, rfl⟩
        · rw [if_neg hc] at h
          simp at h
  · intro db root fs current ip did now res logs e hrun hres
    unfold download_dataset at hrun
    cases hfd : findDataset db did with
    | none =>
        rw [hfd] at hrun; cases hrun; exact ⟨_, rfl⟩
    | some d =>
        rw [hfd] at hrun
        simp only [] at hrun
        cases hla : latestApprovalFor db current.id ResourceType.dataset did with
        | none => rw [hla] at hrun; cases hrun; exact ⟨_, rfl⟩
        | some a =>
            rw [hla] at hrun
            simp only [] at hrun
            by_cases hdec : a.decision = Decision.approved
            · rw [if_neg (by simp [hdec])] at hrun
              cases he : a.expires_at with
              | none =>
                  rw [he] at hrun
                  simp only [] at hrun
                  by_cases hm : (root ++ "/dataset_" ++ toString did) ∈ fs
                  · rw [if_pos hm] at hrun
                    cases hrun
                    simp at hres
                  · rw [if_neg hm] at hrun; cases hrun; exact ⟨_, rfl⟩
              | some eDt =>
                  rw [he] at hrun
                  simp only [] at hrun
                  cases hlt : pyLt eDt (utcnow_naive now) with
                  | error u => rw [hlt] at hrun; cases hrun
                  | ok b =>
                      rw [hlt] at hrun
                      cases b with
                      | true => cases hrun; exact ⟨_, rfl⟩
                      | false =>
                          by_cases hm : (root ++ "/dataset_" ++ toString did) ∈ fs
                          · rw [if_pos hm] at hrun
                            cases hrun
                            simp at hres
                          · rw [if_neg hm] at hrun; cases hrun; exact ⟨_, rfl⟩
            · rw [if_pos (by simp [hdec])] at hrun; cases hrun; exact ⟨_, rfl⟩
  · intro db root fs current ip sid now res logs e hrun hres
    unfold download_sample at hrun
    cases hfs : findSample db sid with
    | none =>
        rw [hfs] at hrun; cases hrun; exact ⟨_, rfl⟩
    | some smp =>
        rw [hfs] at hrun
        simp only [] at hrun
        cases hla : latestApprovalFor db current.id ResourceType.sample sid with
        | none => rw [hla] at hrun; cases hrun; exact ⟨_, rfl⟩
        | some a =>
            rw [hla] at hrun
            simp only [] at hrun
            by_cases hdec : a.decision = Decision.approved
            · rw [if_neg (by simp [hdec])] at hrun
              cases he : ensure_utc a.expires_at with
              | none =>
                  rw [he] at hrun
                  simp only [] at hrun
                  by_cases hm : (root ++ "/" ++ smp.file_path) ∈ fs
                  · rw [if_pos hm] at hrun
                    cases hrun
                    simp at hres
                  · rw [if_neg hm] at hrun; cases hrun; exact ⟨_, rfl⟩
              | some eDt =>
                  rw [he] at hrun
                  simp only [] at hrun
                  cases hlt : pyLt eDt (utc_now now) with
                  | error u => rw [hlt] at hrun; cases hrun
                  | ok b =>
                      rw [hlt] at hrun
                      cases b with
                      | true => cases hrun; exact ⟨_, rfl⟩
                      | false =>
                          by_cases hm : (root ++ "/" ++ smp.file_path) ∈ fs
                          · rw [if_pos hm] at hrun
                            cases hrun
                            simp at hres
                          · rw [if_neg hm] at hrun; cases hrun; exact ⟨_, rfl⟩
            · rw [if_pos (by simp [hdec])] at hrun; cases hrun; exact ⟨_, rfl⟩
  · intro h db root fs current ip did filename content mime new_id now e hrun
    unfold upload_sample at hrun ⊢
    by_cases hext : splitext_ext (str_lower filename) ∈ ALLOWED_EXT
    · rw [if_neg (not_not_intro hext)] at hrun ⊢
      cases hfd : findDataset db did with
      | none => exact ⟨_, rfl⟩
      | some d =>
          rw [hfd] at hrun
          simp only [] at hrun ⊢
          cases hdup : db.samples.find? (fun s => s.sha256 == h content) with
          | none =>
              rw [hdup] at hrun
              simp at hrun
          | some s => exact ⟨_, rfl⟩
    · rw [if_pos hext]
      exact ⟨_, rfl⟩
  · intro db current ip sid ty payload new_id now e hrun
    unfold create_annotation at hrun ⊢
    cases hfs : findSample db sid with
    | none => exact ⟨_, rfl⟩
    | some smp =>
        rw [hfs] at hrun
        simp at hrun
  · intro db current ip aid d ttl now e hrun
    unfold review_approval at hrun ⊢
    cases hfa : findApproval db aid with
    | none => exact ⟨_, rfl⟩
    | some a =>
        rw [hfa] at hrun
        simp only [] at hrun ⊢
        by_cases hp : a.decision = Decision.pending
        · rw [if_neg (by simp [hp])] at hrun
          simp at hrun
        · rw [if_pos (by simp [hp])]
          exact ⟨_, rfl⟩
  · intro db root fs current ip did now e hrun
    unfold delete_dataset at hrun ⊢
    cases hfd : findDataset db did with
    | none =>
        rw [hfd] at hrun
        cases hrun
        exact Or.inl ⟨rfl, rfl⟩
    | some d =>
        rw [hfd] at hrun
        simp only [] at hrun ⊢
        by_cases hperm : d.created_by ≠ current.id ∧
            current.role ∉ ([UserRole.admin, UserRole.data_admin] : List UserRole)
        · rw [if_pos hperm] at hrun ⊢
          cases hrun
          exact Or.inr ⟨rfl, _, rfl⟩
        · rw [if_neg hperm] at hrun
          simp at hrun
  · intro db root fs current ip sid now e hrun
    unfold delete_sample at hrun ⊢
    cases hfs : findSample db sid with
    | none =>
        rw [hfs] at hrun
        cases hrun
        exact Or.inl ⟨rfl, rfl⟩
    | some smp =>
        rw [hfs] at hrun
        simp only [] at hrun ⊢
        by_cases hperm : smp.created_by ≠ current.id ∧
            current.role ∉ ([UserRole.admin, UserRole.data_admin] : List UserRole)
        · rw [if_pos hperm] at hrun ⊢
          cases hrun
          exact Or.inr ⟨rfl, _, rfl⟩
        · rw [if_neg hperm] at hrun
          simp at hrun

/-- Witness for the amended C6: the researcher bob, who is not the creator,
is denied deletion of dataset 1 with exactly one audit row. -/
theorem claim_C6_witness :
    ((403, "无权删除该数据集") : Nat × String).1 = 404 ∧
      (delete_dataset fxDb "/r" [] fxBob none 1 0).2.1 = [] ∨
    ((403, "无权删除该数据集") : Nat × String).1 = 403 ∧
      ∃ l, (delete_dataset fxDb "/r" [] fxBob none 1 0).2.1 = [l] :=
  claim_C6_amended_denial_audit.2.2.2.2.2.2.1 fxDb "/r" [] fxBob none 1 0
    (403, "无权删除该数据集") (by rfl)

end MedImg
